import Mathlib

/-!
Verification development for the KnowledgeGlow knowledge store and its
content-processing pipeline.

The definitions below are a shallow embedding of the Python source:
  * `mock_ai_processing`, `process_content` embed
    `src/ai-service/app/routes/processing.py`;
  * `KnowledgeDB.create_knowledge_item`, `get_knowledge_item`,
    `get_all_knowledge_items`, `update_knowledge_item`,
    `delete_knowledge_item`, `search_knowledge_items` and
    `get_knowledge_stats` embed `src/ai-service/app/database.py` and the
    stats route of `src/ai-service/app/routes/knowledge.py`.

Modelling conventions
  * SQLite's `CURRENT_TIMESTAMP` is a logical clock: every mutating
    operation takes the current time as an explicit `Nat` argument.
  * The JSON round trip used for the `tags` column
    (`json.dumps` on write, `json.loads` on read) is the identity on
    lists of strings, so the stored column is modelled as
    `Option (List String)` (`none` = SQL NULL).
  * `requests.get` network effects inside `extract_text_from_url` are
    modelled by passing the extractor as a function argument
    `String → Except String String` (error = the detail of the
    HTTP 400 `HTTPException` the Python helper raises on any failure).
  * Character classes are the ASCII ones Python uses (`str.split`,
    `str.strip`, `str.lower`); all keyword matching in the source is
    over ASCII strings.
-/

namespace KnowledgeGlow

/-- Python's whitespace class for `str.split()` / `str.strip()`
(ASCII part). -/
def isPyWs (c : Char) : Bool :=
  c == ' ' || c == '\t' || c == '\n' || c == '\r' || c == '\x0b' || c == '\x0c'

/-- Worker for `pySplit`: scan the characters, growing the current word
in reverse in `acc`, emitting it at each whitespace run. -/
def splitWsAux : List Char → List Char → List String
  | [], acc => if acc.isEmpty then [] else [⟨acc.reverse⟩]
  | c :: cs, acc =>
    if isPyWs c then
      if acc.isEmpty then splitWsAux cs [] else ⟨acc.reverse⟩ :: splitWsAux cs []
    else splitWsAux cs (c :: acc)

/-- Python `text.split()`: split on runs of whitespace, no empty words. -/
def pySplit (s : String) : List String := splitWsAux s.data []

/-- Python `text.lower()` (ASCII case folding, as used by the source). -/
def pyLower (s : String) : String := ⟨s.data.map Char.toLower⟩

/-- Python `text.strip()`: drop leading and trailing whitespace. -/
def pyStrip (s : String) : String :=
  ⟨((s.data.dropWhile isPyWs).reverse.dropWhile isPyWs).reverse⟩

/-- Substring test on character lists: `w` occurs contiguously in `s`. -/
def containsSub : List Char → List Char → Bool
  | [], w => w.isEmpty
  | s@(_ :: t), w => w.isPrefixOf s || containsSub t w

/-- Python `w in s` for strings: substring containment. -/
def strContains (s w : String) : Bool :=
  containsSub s.data w.data

/-- Result record of the analysis engine (`mock_ai_processing`). -/
structure AIResult where
  summary : String
  tags : List String
  analysis : String
deriving DecidableEq, Repr

/-- The trigger-keyword lists of the five topic buckets, in the fixed
evaluation order of `mock_ai_processing` (processing.py lines 78-87). -/
def kwAI : List String := ["ai", "artificial intelligence", "machine learning", "ml"]

def kwDev : List String := ["python", "javascript", "programming", "code", "development"]

def kwDb : List String := ["database", "sql", "data"]

def kwWeb : List String := ["web", "http", "api", "rest"]

def kwRes : List String := ["research", "study", "analysis"]

/-- Embedding of `mock_ai_processing` (processing.py lines 60-110).
The `time.sleep(0.5)` delay has no effect on the returned value and is
not modelled. -/
def mock_ai_processing (text : String) : AIResult :=
  let words := pySplit text
  let summary_length := min 50 (words.length / 3)
  let summary := String.intercalate " " (words.take summary_length)
  let summary := if words.length > summary_length then summary ++ "..." else summary
  let text_lower := pyLower text
  let tags : List String := []
  let tags := if kwAI.any (fun w => strContains text_lower w) then tags ++ ["AI"] else tags
  let tags := if kwDev.any (fun w => strContains text_lower w) then tags ++ ["Development"] else tags
  let tags := if kwDb.any (fun w => strContains text_lower w) then tags ++ ["Database"] else tags
  let tags := if kwWeb.any (fun w => strContains text_lower w) then tags ++ ["Web"] else tags
  let tags := if kwRes.any (fun w => strContains text_lower w) then tags ++ ["Research"] else tags
  let tags := if tags.isEmpty then ["General", "Knowledge"] else tags
  let analysis := "This content appears to be about " ++ pyLower (String.intercalate ", " tags) ++ ". "
  let analysis := analysis ++ "The text contains approximately " ++ toString words.length ++ " words and covers "
  let analysis := analysis ++
    (if strContains text_lower "ai" || strContains text_lower "artificial intelligence" then
      "artificial intelligence concepts and applications."
    else if strContains text_lower "development" || strContains text_lower "programming" then
      "software development practices and methodologies."
    else if strContains text_lower "database" then
      "database design and management principles."
    else
      "general knowledge and information.")
  { summary := summary, tags := tags, analysis := analysis }

/-- The ordered bucket table of the spec: `(tag, trigger keywords)` in
the fixed evaluation order AI, Development, Database, Web, Research. -/
def buckets : List (String × List String) :=
  [("AI", kwAI), ("Development", kwDev), ("Database", kwDb), ("Web", kwWeb), ("Research", kwRes)]

/-- Spec-side formulation of the tag rule: filter the ordered bucket
table by case-insensitive substring match, fall back to
`General, Knowledge` when no bucket matches. -/
def specTags (text : String) : List String :=
  let l := pyLower text
  let matched := (buckets.filter (fun b => b.2.any (fun w => strContains l w))).map (fun b => b.1)
  if matched.isEmpty then ["General", "Knowledge"] else matched

/-- The topic clause of the analysis narrative, chosen by the fixed
priority ladder of processing.py lines 97-104. -/
def topicClause (text : String) : String :=
  let l := pyLower text
  if strContains l "ai" || strContains l "artificial intelligence" then
    "artificial intelligence concepts and applications."
  else if strContains l "development" || strContains l "programming" then
    "software development practices and methodologies."
  else if strContains l "database" then
    "database design and management principles."
  else
    "general knowledge and information."

/-- Request body of the `/process` route (pydantic `ProcessingRequest`):
all fields default, `source_type` one of `text`, `url`, `file`. -/
structure ProcessingRequest where
  text : String := ""
  url : String := ""
  source_type : String := "text"
deriving DecidableEq, Repr

/-- Response body of the `/process` route (pydantic
`ProcessingResponse`). -/
structure ProcessingResponse where
  summary : String
  tags : List String
  analysis : String
  status : String
  error : String := ""
deriving DecidableEq, Repr

/-- What the transport layer sees from one call of `process_content`:
either a propagated `HTTPException` (status code, detail) or a normal
`ProcessingResponse` envelope. -/
inductive ProcOutcome where
  | httpError (status : Nat) (detail : String)
  | envelope (r : ProcessingResponse)
deriving DecidableEq, Repr

/-- `true` when the outcome is a normal response envelope rather than a
propagated `HTTPException`. -/
def ProcOutcome.isEnvelope : ProcOutcome → Bool
  | .httpError _ _ => false
  | .envelope _ => true

/-- The content-selection step of `process_content` (processing.py
lines 119-125): pick the payload for the source type, calling the
extractor for `url` sources; error = the `HTTPException` raised
(status code, detail). Python truthiness of the string fields is
non-emptiness. -/
def selectContent (extract : String → Except String String) (req : ProcessingRequest) :
    Except (Nat × String) String :=
  if req.source_type == "url" && req.url ≠ "" then
    match extract req.url with
    | .ok t => .ok t
    | .error msg => .error (400, msg)
  else if req.source_type == "text" && req.text ≠ "" then
    .ok req.text
  else
    .error (400, "No valid content provided")

/-- Embedding of the `/process` route handler `process_content`
(processing.py lines 112-152). An `HTTPException` raised inside the
`try` block is re-raised by the `except HTTPException: raise` arm and
becomes a transport-level fault; only non-HTTP exceptions (none of
which the modelled code can raise) would produce the
`status = "error"` envelope of the final `except` arm. The elapsed-time
measurement does not affect the response body and is not modelled. -/
def process_content (extract : String → Except String String) (req : ProcessingRequest) :
    ProcOutcome :=
  match selectContent extract req with
  | .error (s, d) => .httpError s d
  | .ok text_content =>
    if (pyStrip text_content).length < 10 then
      .httpError 400 "Content too short for processing"
    else
      let ai := mock_ai_processing text_content
      .envelope { summary := ai.summary, tags := ai.tags, analysis := ai.analysis,
                  status := "success", error := "" }

/-- A stored row of the `knowledge_items` table
(database.py lines 49-63). `tags` is the JSON column modelled as the
list it decodes to (`none` = NULL); `created_at`, `updated_at` are
logical timestamps. -/
structure Item where
  id : Nat
  title : String
  content : String
  source_type : String
  source_url : Option String
  tags : Option (List String)
  summary : Option String
  ai_analysis : Option String
  created_at : Nat
  updated_at : Nat
  is_active : Bool
deriving DecidableEq, Repr

/-- The `knowledge_items` table: rows in insertion (rowid) order plus
the AUTOINCREMENT counter for the next id. -/
structure DB where
  items : List Item
  nextId : Nat
deriving DecidableEq, Repr

/-- `ORDER BY created_at DESC` as the (total, transitive) relation used
to sort rows. -/
def createdDesc (a b : Item) : Prop := b.created_at ≤ a.created_at

instance : DecidableRel createdDesc := fun a b => Nat.decLe b.created_at a.created_at

instance : IsTotal Item createdDesc :=
  ⟨fun a b => Nat.le_total b.created_at a.created_at⟩

instance : IsTrans Item createdDesc :=
  ⟨fun _ _ _ hab hbc => Nat.le_trans hbc hab⟩

/-- The active rows of the table, in rowid order
(`WHERE is_active = 1`). -/
def activeItems (db : DB) : List Item := db.items.filter (fun it => it.is_active)

/-- The active rows sorted by `created_at` descending (stable, as a
fixed deterministic model of SQLite's `ORDER BY created_at DESC`). -/
def sortActive (db : DB) : List Item := List.insertionSort createdDesc (activeItems db)

/-- The stored form of a `tags` argument under
`json.dumps(tags) if tags else None` (Python truthiness: `None` and
`[]` both store NULL). -/
def normTags : Option (List String) → Option (List String)
  | some l => if l.isEmpty then none else some l
  | none => none

namespace KnowledgeDB

/-- Embedding of `KnowledgeDB.create_knowledge_item` (database.py lines
87-106). The `CHECK (source_type IN ('text','url','file'))` constraint
of the schema makes the INSERT fail on any other source type. Mirroring
`json.dumps(tags) if tags else None`, a `none` or empty `tags` argument
stores NULL. Returns the new state and the `lastrowid`. -/
def create_knowledge_item (db : DB) (t : Nat) (title content source_type : String)
    (source_url : Option String := none) (tags : Option (List String) := none)
    (summary : Option String := none) (ai_analysis : Option String := none) :
    Except String (DB × Nat) :=
  if source_type == "text" || source_type == "url" || source_type == "file" then
    let tags_json : Option (List String) := normTags tags
    let item : Item :=
      { id := db.nextId, title := title, content := content, source_type := source_type,
        source_url := source_url, tags := tags_json, summary := summary,
        ai_analysis := ai_analysis, created_at := t, updated_at := t, is_active := true }
    .ok ({ items := db.items ++ [item], nextId := db.nextId + 1 }, db.nextId)
  else
    .error "CHECK constraint failed: source_type"

/-- Embedding of `KnowledgeDB.get_knowledge_item` (database.py lines
108-124): `SELECT * WHERE id = ? AND is_active = 1`, first matching
row, tags decoded from JSON (already decoded in the model). -/
def get_knowledge_item (db : DB) (item_id : Nat) : Option Item :=
  db.items.find? (fun it => it.id == item_id && it.is_active)

/-- Embedding of `KnowledgeDB.get_all_knowledge_items` (database.py
lines 126-147): active rows ordered by `created_at` descending, then
`LIMIT ? OFFSET ?`. -/
def get_all_knowledge_items (db : DB) (limit : Nat := 100) (offset : Nat := 0) : List Item :=
  ((sortActive db).drop offset).take limit

/-- One field of the keyword-argument bag passed to
`update_knowledge_item`. The first six constructors are the recognized
columns with their column types; `other` is any unrecognized key (the
runtime allow-list of database.py line 164 drops it). -/
inductive UpdateField where
  | title (v : String)
  | content (v : String)
  | source_url (v : String)
  | tags (v : List String)
  | summary (v : String)
  | ai_analysis (v : String)
  | other (key : String) (v : String)
deriving DecidableEq, Repr

/-- Whether the keyword survives the allow-list
`['title', 'content', 'source_url', 'tags', 'summary', 'ai_analysis']`. -/
def UpdateField.isRecognized : UpdateField → Bool
  | .other _ _ => false
  | _ => true

/-- Apply one recognized SET clause to a row. A `tags` value is
serialized with `json.dumps` (always non-NULL, even for `[]`). -/
def applyField (it : Item) : UpdateField → Item
  | .title v => { it with title := v }
  | .content v => { it with content := v }
  | .source_url v => { it with source_url := some v }
  | .tags v => { it with tags := some v }
  | .summary v => { it with summary := some v }
  | .ai_analysis v => { it with ai_analysis := some v }
  | .other _ _ => it

/-- Embedding of `KnowledgeDB.update_knowledge_item` (database.py lines
150-186): empty kwargs → `False`; allow-list filter; if no clause
survives → `False`; otherwise `UPDATE ... SET <clauses>,
updated_at = CURRENT_TIMESTAMP WHERE id = ? AND is_active = 1` and the
result is `rowcount > 0`. -/
def update_knowledge_item (db : DB) (t : Nat) (item_id : Nat) (kwargs : List UpdateField) :
    DB × Bool :=
  if kwargs.isEmpty then (db, false)
  else
    let set_clauses := kwargs.filter (fun f => f.isRecognized)
    if set_clauses.isEmpty then (db, false)
    else
      let affected := db.items.countP (fun it => it.id == item_id && it.is_active)
      let items := db.items.map (fun it =>
        if it.id == item_id && it.is_active then
          { set_clauses.foldl applyField it with updated_at := t }
        else it)
      ({ db with items := items }, affected > 0)

/-- Embedding of `KnowledgeDB.delete_knowledge_item` (database.py lines
188-203): `UPDATE ... SET is_active = 0, updated_at =
CURRENT_TIMESTAMP WHERE id = ? AND is_active = 1`, result
`rowcount > 0`. -/
def delete_knowledge_item (db : DB) (t : Nat) (item_id : Nat) : DB × Bool :=
  let affected := db.items.countP (fun it => it.id == item_id && it.is_active)
  let items := db.items.map (fun it =>
    if it.id == item_id && it.is_active then
      { it with is_active := false, updated_at := t }
    else it)
  ({ db with items := items }, affected > 0)

/-- One column `LIKE '%query%'` in SQLite: case-insensitive (ASCII)
substring match; a NULL column never matches. Wildcard characters
inside `query` itself are not modelled (no claim exercises them). -/
def likeMatch (col : Option String) (query : String) : Bool :=
  match col with
  | none => false
  | some s => strContains (pyLower s) (pyLower query)

/-- Embedding of `KnowledgeDB.search_knowledge_items` (database.py
lines 205-228): active rows whose title, content or summary matches
`%query%`, ordered by `created_at` descending, `LIMIT ?`. -/
def search_knowledge_items (db : DB) (query : String) (limit : Nat := 50) : List Item :=
  (List.insertionSort createdDesc
    (db.items.filter (fun it =>
      it.is_active &&
        (likeMatch (some it.title) query || likeMatch (some it.content) query ||
          likeMatch it.summary query)))).take limit

end KnowledgeDB

/-- An insertion-ordered counting dict (`d[k] = d.get(k, 0) + 1`). -/
def bump (d : List (String × Nat)) (k : String) : List (String × Nat) :=
  match d with
  | [] => [(k, 1)]
  | (k', n) :: rest => if k' == k then (k', n + 1) :: rest else (k', n) :: bump rest k

/-- Count every element of `ks` into the dict `d`. -/
def bumpAll (d : List (String × Nat)) (ks : List String) : List (String × Nat) :=
  ks.foldl bump d

/-- The statistics record of the `/knowledge/stats/summary` route. -/
structure Stats where
  total_items : Nat
  source_types : List (String × Nat)
  popular_tags : List (String × Nat)
deriving DecidableEq, Repr

/-- `sorted(..., key=lambda x: x[1], reverse=True)` over dict entries:
stable descending sort by count. Python's stable sort with a reversed
comparison keeps insertion order among equal counts; `orderedInsert`
below inserts after earlier strictly-greater entries and before equal
ones, which coincides with the stable order because equal-count entries
are never reordered relative to each other by insertion from the left.
We model it as the stable insertion of each entry into the sorted
remainder of the entries to its right. -/
def sortByCountDesc (d : List (String × Nat)) : List (String × Nat) :=
  List.insertionSort (fun a b => b.2 ≤ a.2) d

/-- Embedding of the stats route `get_knowledge_stats`
(knowledge.py lines 158-188): scan `get_all_knowledge_items(limit=
10000)`, count source types and tag frequencies, report the top ten
tags by count. -/
def get_knowledge_stats (db : DB) : Stats :=
  let items := KnowledgeDB.get_all_knowledge_items db 10000 0
  let source_types := items.foldl (fun d it => bump d it.source_type) []
  let tags_count := items.foldl (fun d it =>
    match it.tags with
    | some l => bumpAll d l
    | none => d) []
  { total_items := items.length
    source_types := source_types
    popular_tags := (sortByCountDesc tags_count).take 10 }

/-- Hard-erase every row with the given id (not an operation of the
source; used only to state that soft-deleted rows contribute nothing). -/
def eraseId (db : DB) (item_id : Nat) : DB :=
  { db with items := db.items.filter (fun it => !(it.id == item_id)) }

/-- A stub extractor standing in for `extract_text_from_url` with the
network down: every fetch raises. -/
def extractStub : String → Except String String :=
  fun _ => .error "Failed to extract content from URL: network unavailable"

/-- The empty store. -/
def db0 : DB := { items := [], nextId := 1 }

/-- A store holding one active item, id 1. -/
def db1 : DB :=
  { items := [{ id := 1, title := "a title", content := "some content", source_type := "text",
                source_url := none, tags := some ["General"], summary := none,
                ai_analysis := none, created_at := 1, updated_at := 1, is_active := true }],
    nextId := 2 }

/-- The store produced by creating an item with `tags = []` in the
empty store: the empty list was serialized to NULL. -/
def dbE : DB :=
  { items := [{ id := 1, title := "t", content := "c", source_type := "text",
                source_url := none, tags := none, summary := none, ai_analysis := none,
                created_at := 0, updated_at := 0, is_active := true }],
    nextId := 2 }

/-- The store produced by creating a fully populated item in the empty
store. -/
def dbA : DB :=
  { items := [{ id := 1, title := "T", content := "C", source_type := "url",
                source_url := some "u", tags := some ["x", "y"], summary := some "s",
                ai_analysis := some "a", created_at := 3, updated_at := 3, is_active := true }],
    nextId := 2 }

/-- A store holding five active items with distinct creation times, in
shuffled rowid order. -/
def db5 : DB :=
  { items :=
      [{ id := 1, title := "i1", content := "c1", source_type := "text", source_url := none,
         tags := none, summary := none, ai_analysis := none, created_at := 3,
         updated_at := 3, is_active := true },
       { id := 2, title := "i2", content := "c2", source_type := "url", source_url := some "u",
         tags := none, summary := none, ai_analysis := none, created_at := 5,
         updated_at := 5, is_active := true },
       { id := 3, title := "i3", content := "c3", source_type := "text", source_url := none,
         tags := none, summary := none, ai_analysis := none, created_at := 1,
         updated_at := 1, is_active := true },
       { id := 4, title := "i4", content := "c4", source_type := "file", source_url := none,
         tags := none, summary := none, ai_analysis := none, created_at := 4,
         updated_at := 4, is_active := true },
       { id := 5, title := "i5", content := "c5", source_type := "text", source_url := none,
         tags := none, summary := none, ai_analysis := none, created_at := 2,
         updated_at := 2, is_active := true }],
    nextId := 6 }

/-! ### Theorems -/

/-- C10: a processing request whose `source_type` is neither `"text"`
nor `"url"` (e.g. `"file"`) always fails with the `NoContent` error
("No valid content provided"), for every extractor — so no extraction
or analysis is performed — and regardless of the `text` and `url`
payload fields. -/
theorem C10_unknown_source_type_fails_no_content
    (extract : String → Except String String) (req : ProcessingRequest)
    (h1 : req.source_type ≠ "text") (h2 : req.source_type ≠ "url") :
    process_content extract req = .httpError 400 "No valid content provided" := by
  unfold process_content selectContent
  simp [h1, h2]

/-- Witness for C10 at `source_type = "file"` with both payloads
filled. -/
theorem C10_witness :
    process_content extractStub
      { text := "plenty of text content here", url := "http:example", source_type := "file" }
      = .httpError 400 "No valid content provided" :=
  C10_unknown_source_type_fails_no_content extractStub
    { text := "plenty of text content here", url := "http:example", source_type := "file" }
    (by decide) (by decide)

/-- C2: validation order of `process_content` — (a) when the payload
matching the source type is absent or empty the request fails with
`NoContent` ("No valid content provided"), before any length check;
(b) otherwise, a `"text"` request whose text strips to fewer than 10
characters fails with `ContentTooShort` ("Content too short for
processing"); (c) likewise a `"url"` request whose extracted text
strips to fewer than 10 characters; and (d) concretely,
`process({sourceType: "text", text: "hi"})` fails with
`ContentTooShort`. -/
theorem C2_validation_order (extract : String → Except String String)
    (req : ProcessingRequest) :
    (¬(req.source_type = "url" ∧ req.url ≠ "") → ¬(req.source_type = "text" ∧ req.text ≠ "") →
      process_content extract req = .httpError 400 "No valid content provided")
  ∧ (req.source_type = "text" → req.text ≠ "" → (pyStrip req.text).length < 10 →
      process_content extract req = .httpError 400 "Content too short for processing")
  ∧ (∀ t, req.source_type = "url" → req.url ≠ "" → extract req.url = .ok t →
      (pyStrip t).length < 10 →
      process_content extract req = .httpError 400 "Content too short for processing")
  ∧ process_content extract { text := "hi", url := "", source_type := "text" }
      = .httpError 400 "Content too short for processing" := by
  refine ⟨?_, ?_, ?_, rfl⟩
  · intro hu ht
    unfold process_content selectContent
    rcases Classical.em (req.source_type = "url") with h | h
    · have hurl : req.url = "" := by
        by_contra hne
        exact hu ⟨h, hne⟩
      simp [h, hurl]
    · rcases Classical.em (req.source_type = "text") with h' | h'
      · have htxt : req.text = "" := by
          by_contra hne
          exact ht ⟨h', hne⟩
        simp [h, h', htxt]
      · simp [h, h']
  · intro hst htxt hlen
    unfold process_content selectContent
    simp [hst, htxt, hlen]
  · intro t hst hurl hex hlen
    unfold process_content selectContent
    simp [hst, hurl, hex, hlen]

/-- Witness for C2 at the text request `"hi"`. -/
theorem C2_witness :
    process_content extractStub { text := "hi", url := "", source_type := "text" }
      = .httpError 400 "Content too short for processing" :=
  (C2_validation_order extractStub { text := "hi", url := "", source_type := "text" }).2.1
    rfl (by decide) (by decide)

/-- C1 counterexample: the claim says an expected content-validation
failure yields a normal result envelope with `status = "error"`; but at
the concrete request `{sourceType: "text", text: ""}` (payload empty)
`process_content` re-raises the `HTTPException` — a transport-level
400 fault, not an envelope. -/
theorem C1_counterexample :
    (process_content extractStub { text := "", url := "", source_type := "text" }).isEnvelope
        = false
  ∧ process_content extractStub { text := "", url := "", source_type := "text" }
        = .httpError 400 "No valid content provided" :=
  ⟨rfl, rfl⟩

/-- C1 amended: a processing request that fails the expected content
validations (payload missing/empty, or extracted text stripping to
fewer than 10 characters) makes `process_content` raise a
transport-level HTTP 400 fault carrying the corresponding detail
message — never a result envelope; the `status = "error"` envelope is
reserved for unexpected non-HTTP failures. -/
theorem C1_amended_validation_fails_as_transport_fault
    (extract : String → Except String String) (req : ProcessingRequest) :
    (¬(req.source_type = "url" ∧ req.url ≠ "") → ¬(req.source_type = "text" ∧ req.text ≠ "") →
      process_content extract req = .httpError 400 "No valid content provided"
        ∧ (process_content extract req).isEnvelope = false)
  ∧ (∀ t, selectContent extract req = .ok t → (pyStrip t).length < 10 →
      process_content extract req = .httpError 400 "Content too short for processing"
        ∧ (process_content extract req).isEnvelope = false) := by
  constructor
  · intro hu ht
    have h : process_content extract req = .httpError 400 "No valid content provided" := by
      unfold process_content selectContent
      rcases Classical.em (req.source_type = "url") with h | h
      · have hurl : req.url = "" := by
          by_contra hne
          exact hu ⟨h, hne⟩
        simp [h, hurl]
      · rcases Classical.em (req.source_type = "text") with h' | h'
        · have htxt : req.text = "" := by
            by_contra hne
            exact ht ⟨h', hne⟩
          simp [h, h', htxt]
        · simp [h, h']
    exact ⟨h, by rw [h]; rfl⟩
  · intro t hsel hlen
    have h : process_content extract req = .httpError 400 "Content too short for processing" := by
      unfold process_content
      rw [hsel]
      simp [hlen]
    exact ⟨h, by rw [h]; rfl⟩

/-- Helper: the imperatively built tag list of `mock_ai_processing`
equals the spec's ordered bucket-table filter with fallback. -/
theorem mock_tags_eq_specTags (text : String) :
    (mock_ai_processing text).tags = specTags text := by
  rcases Bool.eq_false_or_eq_true (kwAI.any (fun w => strContains (pyLower text) w)) with hA | hA <;>
  rcases Bool.eq_false_or_eq_true (kwDev.any (fun w => strContains (pyLower text) w)) with hD | hD <;>
  rcases Bool.eq_false_or_eq_true (kwDb.any (fun w => strContains (pyLower text) w)) with hB | hB <;>
  rcases Bool.eq_false_or_eq_true (kwWeb.any (fun w => strContains (pyLower text) w)) with hW | hW <;>
  rcases Bool.eq_false_or_eq_true (kwRes.any (fun w => strContains (pyLower text) w)) with hR | hR <;>
  simp [mock_ai_processing, specTags, buckets, hA, hD, hB, hW, hR]

/-- Helper: the spec-side tag list never repeats a tag. -/
theorem specTags_nodup (text : String) : (specTags text).Nodup := by
  simp only [specTags]
  split
  · decide
  · have hsub : ((buckets.filter
        (fun b => b.2.any (fun w => strContains (pyLower text) w))).map (fun b => b.1)).Sublist
          (buckets.map (fun b => b.1)) :=
      (List.filter_sublist buckets).map (fun b => b.1)
    exact List.Nodup.sublist hsub (by decide)

/-- C3: for every input, the tags are the ordered filter of the five
fixed buckets (AI, Development, Database, Web, Research) by
case-insensitive substring match on the lowercased text, each tag at
most once, with exactly the fallback `["General", "Knowledge"]` when no
bucket matches; on "This project uses Python and a SQL database for
web APIs" the tags are `[Development, Database, Web]` in that order. -/
theorem C3_tags_bucket_rule (text : String) :
    (mock_ai_processing text).tags = specTags text
  ∧ ((mock_ai_processing text).tags).Nodup
  ∧ (mock_ai_processing "This project uses Python and a SQL database for web APIs").tags
      = ["Development", "Database", "Web"]
  ∧ (mock_ai_processing "zzz qqq").tags = ["General", "Knowledge"] :=
  ⟨mock_tags_eq_specTags text,
   by rw [mock_tags_eq_specTags]; exact specTags_nodup text,
   by decide, by decide⟩

/-- C4: the summary is the first `min(50, wordCount/3)`
whitespace-separated words joined by single spaces, with `"..."`
appended exactly when words were dropped; fewer than 3 words yields
`""` or `"..."` by the same rule (no special case). -/
theorem C4_summary_rule (text : String) :
    (mock_ai_processing text).summary
      = String.intercalate " " ((pySplit text).take (min 50 ((pySplit text).length / 3)))
        ++ (if min 50 ((pySplit text).length / 3) < (pySplit text).length then "..." else "")
  ∧ ((pySplit text).length < 3 →
      (mock_ai_processing text).summary = ""
        ∨ (mock_ai_processing text).summary = "...") := by
  have key : (mock_ai_processing text).summary
      = String.intercalate " " ((pySplit text).take (min 50 ((pySplit text).length / 3)))
        ++ (if min 50 ((pySplit text).length / 3) < (pySplit text).length then "..." else "") := by
    simp only [mock_ai_processing]
    by_cases h : min 50 ((pySplit text).length / 3) < (pySplit text).length
    · simp [h, gt_iff_lt]
    · simp [h, gt_iff_lt, String.append_empty]
  refine ⟨key, ?_⟩
  intro h3
  have h0 : (pySplit text).length / 3 = 0 := Nat.div_eq_of_lt h3
  rcases Nat.eq_zero_or_pos (pySplit text).length with hz | hp
  · left
    rw [key, h0, hz]
    rfl
  · right
    rw [key, h0]
    have hm : (min 50 0 : Nat) = 0 := rfl
    rw [hm, if_pos hp, List.take_zero]
    rfl

/-- Witness for C4 at the two-word input `"one two"`. -/
theorem C4_witness :
    (mock_ai_processing "one two").summary = ""
      ∨ (mock_ai_processing "one two").summary = "..." :=
  (C4_summary_rule "one two").2 (by decide)

/-- C5: the analysis narrative is exactly the template "This content
appears to be about `<tags joined, lowercase>`. The text contains
approximately `<wordCount>` words and covers `<topic clause>`." with
the topic clause chosen by the fixed priority ladder (AI keywords, else
development, else database, else generic); the clause depends only on
the five keyword tests, not on the collected tags. -/
theorem C5_analysis_template (text : String) :
    (mock_ai_processing text).analysis
      = "This content appears to be about "
          ++ pyLower (String.intercalate ", " ((mock_ai_processing text).tags))
          ++ ". " ++ "The text contains approximately " ++ toString (pySplit text).length
          ++ " words and covers " ++ topicClause text
  ∧ (∀ t1 t2 : String,
      strContains (pyLower t1) "ai" = strContains (pyLower t2) "ai" →
      strContains (pyLower t1) "artificial intelligence"
        = strContains (pyLower t2) "artificial intelligence" →
      strContains (pyLower t1) "development" = strContains (pyLower t2) "development" →
      strContains (pyLower t1) "programming" = strContains (pyLower t2) "programming" →
      strContains (pyLower t1) "database" = strContains (pyLower t2) "database" →
      topicClause t1 = topicClause t2) := by
  constructor
  · simp only [mock_ai_processing, topicClause]
  · intro t1 t2 h1 h2 h3 h4 h5
    simp only [topicClause]
    rw [h1, h2, h3, h4, h5]

/-- Witness for C5: two texts that agree on every clause keyword test
(none present in either) get the same topic clause. -/
theorem C5_witness : topicClause "hello world" = topicClause "completely unrelated words" :=
  (C5_analysis_template "x").2 "hello world" "completely unrelated words"
    (by decide) (by decide) (by decide) (by decide) (by decide)

/-- Witness for C1 at the text request `"hi"`, whose selected content
strips to 2 characters. -/
theorem C1_witness :
    process_content extractStub { text := "hi", url := "", source_type := "text" }
        = .httpError 400 "Content too short for processing"
      ∧ (process_content extractStub
          { text := "hi", url := "", source_type := "text" }).isEnvelope = false :=
  (C1_amended_validation_fails_as_transport_fault extractStub
      { text := "hi", url := "", source_type := "text" }).2
    "hi" rfl (by decide)

/-- Helper: one SET clause never touches `id`, `source_type`,
`created_at` or `is_active`. -/
theorem applyField_frame (it : Item) (f : KnowledgeDB.UpdateField) :
    (KnowledgeDB.applyField it f).id = it.id
  ∧ (KnowledgeDB.applyField it f).source_type = it.source_type
  ∧ (KnowledgeDB.applyField it f).created_at = it.created_at
  ∧ (KnowledgeDB.applyField it f).is_active = it.is_active := by
  cases f <;> exact ⟨rfl, rfl, rfl, rfl⟩

/-- Helper: a sequence of SET clauses never touches `id`,
`source_type`, `created_at` or `is_active`. -/
theorem foldl_applyField_frame (fs : List KnowledgeDB.UpdateField) (it : Item) :
    (fs.foldl KnowledgeDB.applyField it).id = it.id
  ∧ (fs.foldl KnowledgeDB.applyField it).source_type = it.source_type
  ∧ (fs.foldl KnowledgeDB.applyField it).created_at = it.created_at
  ∧ (fs.foldl KnowledgeDB.applyField it).is_active = it.is_active := by
  induction fs generalizing it with
  | nil => exact ⟨rfl, rfl, rfl, rfl⟩
  | cons f fs ih =>
    simp only [List.foldl_cons]
    have h := ih (KnowledgeDB.applyField it f)
    have hf := applyField_frame it f
    exact ⟨h.1.trans hf.1, h.2.1.trans hf.2.1, h.2.2.1.trans hf.2.2.1, h.2.2.2.trans hf.2.2.2⟩

/-- C6: `update` can change only the six allowed columns — the result
is unchanged if unrecognized fields are dropped from the bag;
`id`, `source_type`, `created_at` and `is_active` of every stored row
survive any call unchanged; and a call whose field set is empty (or
contains no recognized field) returns `false` and leaves the whole
store — every row, `updated_at` included — exactly as it was. -/
theorem C6_update_scope (db : DB) (t item_id : Nat)
    (kwargs : List KnowledgeDB.UpdateField) :
    KnowledgeDB.update_knowledge_item db t item_id kwargs
      = KnowledgeDB.update_knowledge_item db t item_id
          (kwargs.filter (fun f => f.isRecognized))
  ∧ List.Forall₂
      (fun a b => b.id = a.id ∧ b.source_type = a.source_type
        ∧ b.created_at = a.created_at ∧ b.is_active = a.is_active)
      db.items (KnowledgeDB.update_knowledge_item db t item_id kwargs).1.items
  ∧ (kwargs.filter (fun f => f.isRecognized) = [] →
      KnowledgeDB.update_knowledge_item db t item_id kwargs = (db, false)) := by
  refine ⟨?_, ?_, ?_⟩
  · by_cases h0 : kwargs = []
    · subst h0
      rfl
    · have he : kwargs.isEmpty = false := by simp [h0]
      by_cases h1 : kwargs.filter (fun f => f.isRecognized) = []
      · simp [KnowledgeDB.update_knowledge_item, he, h1]
      · have he2 : (kwargs.filter (fun f => f.isRecognized)).isEmpty = false := by simp [h1]
        simp [KnowledgeDB.update_knowledge_item, he, he2, List.filter_filter, Bool.and_self]
  · rcases Bool.eq_false_or_eq_true kwargs.isEmpty with h0 | h0
    · simp only [KnowledgeDB.update_knowledge_item, h0, if_true]
      exact List.forall₂_same.mpr (fun a _ => ⟨rfl, rfl, rfl, rfl⟩)
    · rcases Bool.eq_false_or_eq_true (kwargs.filter (fun f => f.isRecognized)).isEmpty
        with h1 | h1
      · simp only [KnowledgeDB.update_knowledge_item, h0, h1, if_true, Bool.false_eq_true,
          if_false]
        exact List.forall₂_same.mpr (fun a _ => ⟨rfl, rfl, rfl, rfl⟩)
      · simp only [KnowledgeDB.update_knowledge_item, h0, h1, Bool.false_eq_true, if_false]
        refine List.forall₂_map_right_iff.mpr (List.forall₂_same.mpr ?_)
        intro a _
        by_cases hc : (a.id == item_id && a.is_active) = true
        · simp only [hc, if_true]
          have hf := foldl_applyField_frame (kwargs.filter (fun f => f.isRecognized)) a
          exact ⟨hf.1, hf.2.1, hf.2.2.1, hf.2.2.2⟩
        · simp only [hc, if_false]
          exact ⟨rfl, rfl, rfl, rfl⟩
  · intro h1
    by_cases h0 : kwargs = []
    · subst h0
      rfl
    · have he : kwargs.isEmpty = false := by simp [h0]
      simp [KnowledgeDB.update_knowledge_item, he, h1]

/-- Witness for C6: updating with an empty field set on a sample store
returns `false` and changes nothing. -/
theorem C6_witness : KnowledgeDB.update_knowledge_item db0 5 1 [] = (db0, false) :=
  (C6_update_scope db0 5 1 []).2.2 rfl

/-- Helper: after `delete_knowledge_item`, no row with the deleted id
is still active — the selection predicate `id = ? AND is_active = 1` is
false on every remaining row. -/
theorem delete_kills (db : DB) (t item_id : Nat) :
    ∀ it ∈ (KnowledgeDB.delete_knowledge_item db t item_id).1.items,
      (it.id == item_id && it.is_active) = false := by
  intro it hmem
  simp only [KnowledgeDB.delete_knowledge_item] at hmem
  rcases List.mem_map.mp hmem with ⟨a, _, rfl⟩
  rcases Bool.eq_false_or_eq_true (a.id == item_id && a.is_active) with hc | hc
  · simp [hc]
  · simp [hc]

/-- Helper: the Boolean returned by `delete_knowledge_item` is
`rowcount > 0` for the selection `id = ? AND is_active = 1`. -/
theorem delete_snd (db : DB) (t item_id : Nat) :
    (KnowledgeDB.delete_knowledge_item db t item_id).2
      = decide (List.countP (fun it => it.id == item_id && it.is_active) db.items > 0) :=
  rfl

/-- C7: after a successful soft delete, the item is invisible to `get`,
`list` and `search`, contributes nothing to the statistics (the stats
of the store equal the stats with the row hard-erased), a second
`delete` of the same id returns `false`, and `update` on the deleted id
returns `false` for every field bag. -/
theorem C7_soft_delete_hides (db : DB) (t t' t'' item_id : Nat)
    (_hdel : (KnowledgeDB.delete_knowledge_item db t item_id).2 = true) :
    KnowledgeDB.get_knowledge_item
        (KnowledgeDB.delete_knowledge_item db t item_id).1 item_id = none
  ∧ (∀ n o it, it ∈ KnowledgeDB.get_all_knowledge_items
        (KnowledgeDB.delete_knowledge_item db t item_id).1 n o → it.id ≠ item_id)
  ∧ (∀ q n it, it ∈ KnowledgeDB.search_knowledge_items
        (KnowledgeDB.delete_knowledge_item db t item_id).1 q n → it.id ≠ item_id)
  ∧ get_knowledge_stats (KnowledgeDB.delete_knowledge_item db t item_id).1
      = get_knowledge_stats
          (eraseId (KnowledgeDB.delete_knowledge_item db t item_id).1 item_id)
  ∧ (KnowledgeDB.delete_knowledge_item
        (KnowledgeDB.delete_knowledge_item db t item_id).1 t' item_id).2 = false
  ∧ (∀ kwargs, (KnowledgeDB.update_knowledge_item
        (KnowledgeDB.delete_knowledge_item db t item_id).1 t'' item_id kwargs).2 = false) := by
  have hkill := delete_kills db t item_id
  have hcz : List.countP (fun it => it.id == item_id && it.is_active)
      (KnowledgeDB.delete_knowledge_item db t item_id).1.items = 0 :=
    List.countP_eq_zero.mpr (fun a ha => by simp [hkill a ha])
  have hmemfalse : ∀ it, it ∈ (KnowledgeDB.delete_knowledge_item db t item_id).1.items →
      it.is_active = true → it.id ≠ item_id := by
    intro it hmem hact heq
    have h := hkill it hmem
    rw [hact, heq] at h
    simp at h
  refine ⟨?_, ?_, ?_, ?_, ?_, ?_⟩
  · exact List.find?_eq_none.mpr (fun x hx => by simp [hkill x hx])
  · intro n o it hmem
    have h1 : it ∈ sortActive (KnowledgeDB.delete_knowledge_item db t item_id).1 :=
      (List.drop_subset _ _) ((List.take_subset _ _) hmem)
    have h2 : it ∈ activeItems (KnowledgeDB.delete_knowledge_item db t item_id).1 :=
      (List.perm_insertionSort createdDesc _).mem_iff.mp h1
    rcases List.mem_filter.mp h2 with ⟨h3, h4⟩
    exact hmemfalse it h3 h4
  · intro q n it hmem
    have h1 := (List.take_subset _ _) hmem
    have h2 := (List.perm_insertionSort createdDesc _).mem_iff.mp h1
    rcases List.mem_filter.mp h2 with ⟨h3, h4⟩
    rcases (Bool.and_eq_true _ _).mp h4 with ⟨h5, _⟩
    exact hmemfalse it h3 h5
  · have hfi : activeItems (KnowledgeDB.delete_knowledge_item db t item_id).1
        = activeItems (eraseId (KnowledgeDB.delete_knowledge_item db t item_id).1 item_id) := by
      unfold activeItems eraseId
      rw [List.filter_filter]
      refine List.filter_congr ?_
      intro x hx
      rcases Bool.eq_false_or_eq_true (x.id == item_id) with hb | hb
      · have h := hkill x hx
        rw [hb] at h
        simp at h
        simp [h, hb]
      · simp [hb]
    have hso : sortActive (KnowledgeDB.delete_knowledge_item db t item_id).1
        = sortActive (eraseId (KnowledgeDB.delete_knowledge_item db t item_id).1 item_id) := by
      unfold sortActive
      rw [hfi]
    unfold get_knowledge_stats KnowledgeDB.get_all_knowledge_items
    rw [hso]
  · rw [delete_snd, hcz]
    rfl
  · intro kwargs
    by_cases h0 : kwargs.isEmpty
    · simp [KnowledgeDB.update_knowledge_item, h0]
    · by_cases h1 : (kwargs.filter (fun f => f.isRecognized)).isEmpty
      · simp [KnowledgeDB.update_knowledge_item, h0, h1]
      · simp [KnowledgeDB.update_knowledge_item, h0, h1, hcz]

/-- Witness for C7: deleting the only item of a sample store (a
successful delete) makes `get` return `NotFound` for its id. -/
theorem C7_witness :
    KnowledgeDB.get_knowledge_item (KnowledgeDB.delete_knowledge_item db1 7 1).1 1 = none :=
  (C7_soft_delete_hides db1 7 8 9 1 (by decide)).1

/-- C8 counterexample: creating an item with the explicit empty tags
list `[]` and reading it back returns `tags = None`, not the supplied
`[]` — the read-back is not identical to the values given at creation.
-/
theorem C8_counterexample :
    KnowledgeDB.create_knowledge_item db0 0 "t" "c" "text" none (some []) none none
      = .ok (dbE, 1)
  ∧ (KnowledgeDB.get_knowledge_item dbE 1).map Item.tags = some none
  ∧ (none : Option (List String)) ≠ some [] :=
  ⟨rfl, rfl, by decide⟩

/-- C8 amended: creating an item and immediately reading the returned
id yields exactly the supplied field values except for the
server-assigned `id`, `created_at` and `updated_at` — and except that
the tags list is stored through `json.dumps(tags) if tags else None`,
so an empty (or absent) tags list reads back as absent (`normTags`). -/
theorem C8_create_get_roundtrip (db : DB) (t : Nat)
    (title content source_type : String) (source_url : Option String)
    (tags : Option (List String)) (summary ai_analysis : Option String)
    (hfresh : ∀ it ∈ db.items, it.id ≠ db.nextId) :
    ∀ db' rid, KnowledgeDB.create_knowledge_item db t title content source_type
        source_url tags summary ai_analysis = .ok (db', rid) →
      rid = db.nextId ∧
      KnowledgeDB.get_knowledge_item db' rid = some
        { id := db.nextId, title := title, content := content, source_type := source_type,
          source_url := source_url, tags := normTags tags, summary := summary,
          ai_analysis := ai_analysis, created_at := t, updated_at := t, is_active := true } := by
  intro db' rid h
  unfold KnowledgeDB.create_knowledge_item at h
  by_cases hs : (source_type == "text" || source_type == "url" || source_type == "file") = true
  · rw [if_pos hs] at h
    have h' := h
    rw [Except.ok.injEq, Prod.mk.injEq] at h'
    obtain ⟨hdb, hrid⟩ := h'
    subst hdb
    subst hrid
    refine ⟨rfl, ?_⟩
    unfold KnowledgeDB.get_knowledge_item
    rw [List.find?_append]
    have hnone : db.items.find?
        (fun it => it.id == db.nextId && it.is_active) = none :=
      List.find?_eq_none.mpr (fun x hx => by
        have := hfresh x hx
        simp [this])
    rw [hnone, Option.none_or]
    simp [List.find?_cons]
  · rw [if_neg hs] at h
    exact absurd h (by simp)

/-- Witness for C8 at a fully populated creation in the empty store. -/
theorem C8_witness :
    (1 : Nat) = db0.nextId ∧
    KnowledgeDB.get_knowledge_item dbA 1 = some
      { id := db0.nextId, title := "T", content := "C", source_type := "url",
        source_url := some "u", tags := normTags (some ["x", "y"]), summary := some "s",
        ai_analysis := some "a", created_at := 3, updated_at := 3, is_active := true } :=
  C8_create_get_roundtrip db0 3 "T" "C" "url" (some "u") (some ["x", "y"]) (some "s")
    (some "a") (fun it h => absurd h (List.not_mem_nil it)) dbA 1 rfl

/-- C9: `list(limit, offset)` pages the active items sorted by
`created_at` descending: each page is the `take limit` of the
`drop offset` of that sorted sequence (hence sorted itself, with
consecutive pages neither overlapping nor leaving gaps), and over 5
active items the pages `(2,0)`, `(2,2)`, `(2,4)` have 2, 2 and 1 items
and concatenate to exactly the whole sorted active sequence. -/
theorem C9_pagination (db : DB) :
    List.Sorted createdDesc (sortActive db)
  ∧ (sortActive db).Perm (activeItems db)
  ∧ (∀ n o, KnowledgeDB.get_all_knowledge_items db n o = ((sortActive db).drop o).take n
      ∧ List.Sorted createdDesc (KnowledgeDB.get_all_knowledge_items db n o))
  ∧ ((activeItems db).length = 5 →
        (KnowledgeDB.get_all_knowledge_items db 2 0).length = 2
      ∧ (KnowledgeDB.get_all_knowledge_items db 2 2).length = 2
      ∧ (KnowledgeDB.get_all_knowledge_items db 2 4).length = 1
      ∧ KnowledgeDB.get_all_knowledge_items db 2 0
          ++ KnowledgeDB.get_all_knowledge_items db 2 2
          ++ KnowledgeDB.get_all_knowledge_items db 2 4 = sortActive db) := by
  have hs : List.Sorted createdDesc (sortActive db) :=
    List.sorted_insertionSort createdDesc _
  have hp : (sortActive db).Perm (activeItems db) :=
    List.perm_insertionSort createdDesc _
  refine ⟨hs, hp, ?_, ?_⟩
  · intro n o
    refine ⟨rfl, ?_⟩
    exact List.Pairwise.sublist
      ((List.take_sublist n ((sortActive db).drop o)).trans
        (List.drop_sublist o (sortActive db))) hs
  · intro h5
    have hl : (sortActive db).length = 5 := hp.length_eq.trans h5
    have len1 : (KnowledgeDB.get_all_knowledge_items db 2 0).length = 2 := by
      show (((sortActive db).drop 0).take 2).length = 2
      rw [List.length_take, List.length_drop, hl]
      decide
    have len2 : (KnowledgeDB.get_all_knowledge_items db 2 2).length = 2 := by
      show (((sortActive db).drop 2).take 2).length = 2
      rw [List.length_take, List.length_drop, hl]
      decide
    have len3 : (KnowledgeDB.get_all_knowledge_items db 2 4).length = 1 := by
      show (((sortActive db).drop 4).take 2).length = 1
      rw [List.length_take, List.length_drop, hl]
      decide
    refine ⟨len1, len2, len3, ?_⟩
    have e1 : KnowledgeDB.get_all_knowledge_items db 2 0 = (sortActive db).take 2 := by
      show ((sortActive db).drop 0).take 2 = _
      rw [List.drop_zero]
    have e3 : KnowledgeDB.get_all_knowledge_items db 2 4 = (sortActive db).drop 4 := by
      show ((sortActive db).drop 4).take 2 = _
      apply List.take_of_length_le
      rw [List.length_drop, hl]
      decide
    rw [e1, e3, List.append_assoc]
    show (sortActive db).take 2
        ++ (((sortActive db).drop 2).take 2 ++ (sortActive db).drop 4) = sortActive db
    rw [show (4 : Nat) = 2 + 2 from rfl, ← List.drop_drop, List.take_append_drop,
      List.take_append_drop]

/-- Witness for C9: the first page over a five-item store has two
items. -/
theorem C9_witness : (KnowledgeDB.get_all_knowledge_items db5 2 0).length = 2 :=
  ((C9_pagination db5).2.2.2 (by decide)).1

end KnowledgeGlow
